import Mathlib

/-!
Shallow embedding of the session relay core of src/backend/main.py
(Gemini Live API backend) and proofs about the claims of its
specification.  Numbers carried opaquely by the code (quantities,
confidence scores, timestamps) are modelled as rationals; the code never
computes with them, it only stores, defaults and forwards them.
-/

namespace GetBananas

/-- Data model of main.py lines 41-45: pydantic ShoppingListItem with
defaults quantity = 1 and category = "Ogólne". -/
structure ShoppingListItem where
  name : String
  quantity : Rat
  unit : Option String
  category : String
deriving DecidableEq

/-- Data model of main.py lines 47-51: pydantic ShoppingListState with
defaults conversation_context = "" and confidence = 0.8. -/
structure ShoppingListState where
  items : List ShoppingListItem
  conversation_context : String
  last_update : Rat
  confidence : Rat
deriving DecidableEq

/-- One raw item dictionary inside the args of a tool call; every key may
be absent, mirroring the dict .get accesses of main.py lines 288-293. -/
structure ItemArgs where
  name : Option String
  quantity : Option Rat
  unit : Option String
  category : Option String
deriving DecidableEq

/-- The args dictionary of a tool call: main.py lines 281-283 read keys
items and confidence with .get. -/
structure UpdateArgs where
  items : Option (List ItemArgs)
  confidence : Option Rat
deriving DecidableEq

/-- One function call of a toolCall frame: main.py reads name (required
index at line 272), id (via .get at line 277) and args (line 281). -/
structure FuncCall where
  name : String
  id : Option String
  args : UpdateArgs
deriving DecidableEq

/-- One element of serverContent.parts; the text key may be absent
(main.py line 257). -/
structure MsgPart where
  text : Option String
deriving DecidableEq

/-- The serverContent dictionary; the parts key may be absent
(main.py line 255). -/
structure ServerContent where
  parts : Option (List MsgPart)
deriving DecidableEq

/-- The toolCall dictionary; the functionCalls key may be absent
(main.py line 269). -/
structure ToolCallData where
  functionCalls : Option (List FuncCall)
deriving DecidableEq

/-- A decoded Gemini message as consumed by _handle_gemini_message:
truthiness of setupComplete, optional serverContent, optional toolCall
(main.py lines 236-277). -/
structure GeminiData where
  setupComplete : Bool
  serverContent : Option ServerContent
  toolCall : Option ToolCallData
deriving DecidableEq

/-- Outbound messages sent over the client websocket via send_json,
one constructor per literal type value used in main.py. -/
inductive ClientMsg where
  | status (s : String) (message : String)
  | transcript (text : String) (isUser : Bool)
  | shoppingListUpdated (st : ShoppingListState)
  | audioReceived (timestamp : Rat) (chunk_size : Nat)
  | sessionStarted (uid : String) (message : String)
  | sessionStopped (message : String)
  | pong (timestamp : Rat)
  | errorMsg (message : String)
deriving DecidableEq

/-- Outbound frames sent to the Gemini websocket: audio envelopes
(send_audio_chunk) and tool responses (_send_function_response). -/
inductive UpstreamMsg where
  | audio (data : String)
  | functionResponse (callId : Option String)
deriving DecidableEq

/-- Mutable state of GeminiLiveService (main.py lines 113-117): the
is_connected flag and whether self.websocket is non-None. -/
structure GeminiService where
  is_connected : Bool
  hasWs : Bool
deriving DecidableEq

/-- Mutable state of a UserSession (main.py lines 71-82), omitting the
non-data websocket and service handles. -/
structure SessionState where
  user_id : String
  is_connected : Bool
  created_at : Rat
  last_activity : Rat
  shopping_list_state : ShoppingListState
deriving DecidableEq

/-- UserSession.__init__ (main.py lines 72-82): empty list, pydantic
defaults for context and confidence, both timestamps set to now. -/
def UserSession_init (uid : String) (now : Rat) : SessionState :=
  ⟨uid, false, now, now, ⟨[], "", now, 4 / 5⟩⟩

/-- Item parsing of main.py lines 287-294: dict .get with defaults
name "unknown", quantity 1, category "Ogólne"; unit passes through. -/
def mkShoppingListItem (d : ItemArgs) : ShoppingListItem :=
  ⟨d.name.getD "unknown", d.quantity.getD 1, d.unit, d.category.getD "Ogólne"⟩

/-- _handle_shopping_list_update (main.py lines 279-301): read items
(default empty) and confidence (default 0.8) from args, convert the
items, and build a fresh ShoppingListState stamped with the current
time.  The surrounding UserSession object is not referenced. -/
def handle_shopping_list_update (args : UpdateArgs) (now : Rat) : ShoppingListState :=
  ⟨(args.items.getD []).map mkShoppingListItem, "", now, args.confidence.getD (4 / 5)⟩

/-- _send_function_response (main.py lines 313-332): returns without
sending when not connected or the websocket is gone; otherwise emits one
toolResponse frame carrying the call id. -/
def send_function_response (g : GeminiService) (callId : Option String) : List UpstreamMsg :=
  if g.is_connected && g.hasWs then [UpstreamMsg.functionResponse callId] else []

/-- The per-function-call branch of _handle_gemini_message (main.py
lines 270-277): only a call named update_shopping_list produces a
client message, and only that branch sends the function response. -/
def handle_function_call (g : GeminiService) (now : Rat) (fc : FuncCall) :
    List ClientMsg × List UpstreamMsg :=
  if fc.name = "update_shopping_list" then
    ([ClientMsg.shoppingListUpdated (handle_shopping_list_update fc.args now)],
     send_function_response g fc.id)
  else ([], [])

/-- The loop over toolCall.functionCalls (main.py lines 269-277),
concatenating the outputs of each call in order. -/
def handle_tool_calls (g : GeminiService) (now : Rat) (fcs : List FuncCall) :
    List ClientMsg × List UpstreamMsg :=
  fcs.foldl (fun acc fc =>
    let r := handle_function_call g now fc
    (acc.1 ++ r.1, acc.2 ++ r.2)) ([], [])

/-- _handle_gemini_message (main.py lines 236-277): a truthy
setupComplete sends a status frame and returns early; otherwise the
serverContent parts with a text key each yield a transcript frame, and
then the toolCall function calls are processed. -/
def handle_gemini_message (g : GeminiService) (now : Rat) (d : GeminiData) :
    List ClientMsg × List UpstreamMsg :=
  if d.setupComplete then
    ([ClientMsg.status "listening" "Gemini Live API ready"], [])
  else
    let transcripts :=
      match d.serverContent with
      | none => []
      | some c => (c.parts.getD []).filterMap fun p =>
          p.text.map fun t => ClientMsg.transcript t false
    let toolOut :=
      match d.toolCall with
      | none => ([], [])
      | some tc => handle_tool_calls g now (tc.functionCalls.getD [])
    (transcripts ++ toolOut.1, toolOut.2)

/-- One iteration outcome of the async-for in listen_for_responses
(main.py lines 214-234): a frame whose json.loads fails, a decoded
frame, or the ConnectionClosed exception raised by the iterator. -/
inductive UpstreamFrame where
  | malformed
  | ok (d : GeminiData)
  | connClosed
deriving DecidableEq

/-- Result of running the upstream pump: frames sent to the client,
frames sent back upstream, and the service state left behind. -/
structure PumpOutput where
  toClient : List ClientMsg
  toUpstream : List UpstreamMsg
  service : GeminiService
deriving DecidableEq

/-- listen_for_responses (main.py lines 214-234) over a finite prefix of
the upstream stream, each frame paired with the clock value at which it
is handled.  A malformed frame is logged and skipped; a decoded frame is
dispatched; ConnectionClosed stops the loop and clears is_connected
without emitting anything.  No branch references the UserSession. -/
def listen_for_responses (g : GeminiService) :
    List (UpstreamFrame × Rat) → PumpOutput
  | [] => ⟨[], [], g⟩
  | (UpstreamFrame.malformed, _) :: rest => listen_for_responses g rest
  | (UpstreamFrame.ok d, now) :: rest =>
    let r := handle_gemini_message g now d
    let o := listen_for_responses g rest
    ⟨r.1 ++ o.toClient, r.2 ++ o.toUpstream, o.service⟩
  | (UpstreamFrame.connClosed, _) :: _ => ⟨[], [], { g with is_connected := false }⟩

/-- The upstream pump together with the UserSession that the endpoint
holds while the pump runs.  In the source neither listen_for_responses
nor _handle_shopping_list_update receives or mutates the UserSession
object, so the session comes back exactly as it went in. -/
def process_upstream_events (g : GeminiService) (s : SessionState)
    (frames : List (UpstreamFrame × Rat)) : SessionState × PumpOutput :=
  (s, listen_for_responses g frames)

/-- Client commands as parsed from the type field of an inbound client
frame (main.py lines 389-468); fields read with .get may be absent. -/
inductive ClientCmd where
  | audio_chunk (audio_data : Option String) (timestamp : Option Rat)
  | start_session
  | stop_session
  | ping
  | test_audio (text : Option String)
  | unknownCmd
deriving DecidableEq

/-- send_audio_chunk (main.py lines 193-212): silently drops the chunk
when not connected or the websocket is gone, otherwise wraps it in one
realtimeInput frame. -/
def send_audio_chunk (g : GeminiService) (audio_data : String) : List UpstreamMsg :=
  if g.is_connected && g.hasWs then [UpstreamMsg.audio audio_data] else []

/-- Outcome of one iteration of the client command loop: the updated
session, replies to the client, frames forwarded upstream, and whether
the loop breaks (stop_session). -/
structure CmdOutput where
  session : SessionState
  toClient : List ClientMsg
  toUpstream : List UpstreamMsg
  stop : Bool
deriving DecidableEq

/-- The body of the client message loop in websocket_endpoint (main.py
lines 385-468): last_activity is refreshed first (line 392), then the
command is dispatched on its type field.  An audio_chunk is forwarded
and acknowledged only when audio_data is truthy, a missing or empty
payload is only logged; ping replies pong; start_session and
stop_session reply their fixed frames; test_audio emits a user
transcript and a fixed one-item list; unknown types are ignored. -/
def handle_client_message (g : GeminiService) (now : Rat) (s0 : SessionState)
    (cmd : ClientCmd) : CmdOutput :=
  let s := { s0 with last_activity := now }
  match cmd with
  | ClientCmd.audio_chunk audio_data timestamp =>
    let ts := timestamp.getD now
    match audio_data with
    | some a =>
      if a = "" then ⟨s, [], [], false⟩
      else ⟨s, [ClientMsg.audioReceived ts a.length], send_audio_chunk g a, false⟩
    | none => ⟨s, [], [], false⟩
  | ClientCmd.start_session =>
    ⟨s, [ClientMsg.sessionStarted s.user_id "Session started successfully"], [], false⟩
  | ClientCmd.stop_session =>
    ⟨s, [ClientMsg.sessionStopped "Session stopped"], [], true⟩
  | ClientCmd.ping => ⟨s, [ClientMsg.pong now], [], false⟩
  | ClientCmd.test_audio text =>
    let t := text.getD "Dodaj mleko do listy"
    ⟨s, [ClientMsg.transcript t true,
         ClientMsg.shoppingListUpdated ⟨[⟨"mleko", 1, none, "Nabiał"⟩], "", now, 19 / 20⟩],
     [], false⟩
  | ClientCmd.unknownCmd => ⟨s, [], [], false⟩

/-- The client command loop (main.py lines 385-468) over a finite
sequence of commands, each paired with its arrival clock; processing is
strictly in arrival order and stops after a command whose handler
breaks the loop. -/
def client_loop (g : GeminiService) :
    SessionState → List (ClientCmd × Rat) →
    SessionState × List ClientMsg × List UpstreamMsg
  | s, [] => (s, [], [])
  | s, (cmd, now) :: rest =>
    let r := handle_client_message g now s cmd
    if r.stop then (r.session, r.toClient, r.toUpstream)
    else
      let o := client_loop g r.session rest
      (o.1, r.toClient ++ o.2.1, r.toUpstream ++ o.2.2)

/-- Process-wide state: the active_sessions dict of main.py line 95,
modelled as an insertion-ordered association list from user id to a
session object identifier, together with the set of client transports
that have been closed so far (as a list of identifiers). -/
structure ServerState where
  active_sessions : List (String × Nat)
  closed_transports : List Nat
deriving DecidableEq

/-- True when the dict holds the key. -/
def hasKey (l : List (String × Nat)) (k : String) : Bool :=
  l.any fun p => p.1 == k

/-- Number of entries the association list holds for a key; a faithful
python dict always has at most one. -/
def countKey (l : List (String × Nat)) (k : String) : Nat :=
  (l.filter fun p => p.1 == k).length

/-- First value stored under a key, as python dict lookup. -/
def lookupKey : List (String × Nat) → String → Option Nat
  | [], _ => none
  | p :: rest, k => if p.1 == k then some p.2 else lookupKey rest k

/-- Python dict assignment: replace the value in place when the key
exists (insertion order kept), otherwise append a new entry. -/
def dictSet (l : List (String × Nat)) (k : String) (v : Nat) : List (String × Nat) :=
  if hasKey l k then l.map fun p => if p.1 == k then (k, v) else p
  else l ++ [(k, v)]

/-- Python dict deletion: drop the entry for the key. -/
def dictDelete (l : List (String × Nat)) (k : String) : List (String × Nat) :=
  l.filter fun p => p.1 != k

/-- The session creation steps of websocket_endpoint (main.py lines
367-371): build a fresh UserSession and assign it into active_sessions.
The code closes no websocket here, so closed_transports is untouched and
any previous session object for the same user id is merely dropped from
the dict. -/
def accept_connection (st : ServerState) (uid : String) (sid : Nat) : ServerState :=
  { st with active_sessions := dictSet st.active_sessions uid sid }

/-- GeminiLiveService.disconnect (main.py lines 334-339): when a
websocket exists its close is awaited first; if that close raises, the
exception propagates and is_connected is never cleared.  closeOk says
whether the close call succeeds. -/
def gemini_disconnect (g : GeminiService) (closeOk : Bool) : Except Unit GeminiService :=
  if g.hasWs && !closeOk then Except.error ()
  else Except.ok { g with is_connected := false }

/-- The finally block of websocket_endpoint (main.py lines 496-501):
await gemini_service.disconnect() runs first, unguarded; only when it
returns normally does the registry deletion run.  The Bool result is
true when an exception escaped the block (registry deletion skipped). -/
def session_cleanup (g : GeminiService) (closeOk : Bool) (st : ServerState)
    (uid : String) : GeminiService × ServerState × Bool :=
  match gemini_disconnect g closeOk with
  | Except.error _ => (g, st, true)
  | Except.ok g2 =>
    (g2, { st with active_sessions := dictDelete st.active_sessions uid }, false)

/-- The first extraction call of the replacement scenario:
items = [{name: "milk", quantity: 1}]. -/
def milkCall1 : FuncCall :=
  ⟨"update_shopping_list", some "call1", ⟨some [⟨some "milk", some 1, none, none⟩], none⟩⟩

/-- The second extraction call of the replacement scenario:
items = [{name: "milk", quantity: 2}, {name: "onion", quantity: 1}]. -/
def milkOnionCall : FuncCall :=
  ⟨"update_shopping_list", some "call2",
   ⟨some [⟨some "milk", some 2, none, none⟩, ⟨some "onion", some 1, none, none⟩], none⟩⟩

/-- A decoded upstream frame holding exactly one tool call. -/
def toolFrame (fc : FuncCall) : UpstreamFrame :=
  UpstreamFrame.ok ⟨false, none, some ⟨some [fc]⟩⟩

/-- Replacing the value under a key entry by entry keeps the number of
entries stored for that key. -/
theorem countKey_map_set (l : List (String × Nat)) (k : String) (v : Nat) :
    countKey (l.map fun p => if p.1 == k then (k, v) else p) k = countKey l k := by
  induction l with
  | nil => rfl
  | cons p rest ih =>
    simp only [countKey, List.map_cons, List.filter_cons] at ih ⊢
    by_cases hp : p.1 = k
    · simp [hp] at ih ⊢
      try exact ih
    · simp [hp] at ih ⊢
      try exact ih

/-- A key is absent from the dict exactly when it stores no entry. -/
theorem hasKey_eq_false_iff (l : List (String × Nat)) (k : String) :
    hasKey l k = false ↔ countKey l k = 0 := by
  induction l with
  | nil => simp [hasKey, countKey]
  | cons p rest ih =>
    simp only [hasKey, countKey, List.any_cons, List.filter_cons] at ih ⊢
    by_cases hp : p.1 = k
    · simp [hp]
    · simp [hp] at ih ⊢
      try exact ih

/-- Appending a single entry for a key adds one to its entry count. -/
theorem countKey_append_single (l : List (String × Nat)) (k : String) (v : Nat) :
    countKey (l ++ [(k, v)]) k = countKey l k + 1 := by
  simp [countKey, List.filter_append, List.filter_cons]

/-- Dict assignment leaves exactly one entry for the assigned key,
provided the dict held at most one before (as a python dict does). -/
theorem countKey_dictSet (l : List (String × Nat)) (k : String) (v : Nat)
    (h : countKey l k ≤ 1) : countKey (dictSet l k v) k = 1 := by
  unfold dictSet
  by_cases hk : hasKey l k = true
  · rw [if_pos hk, countKey_map_set]
    have h0 : countKey l k ≠ 0 := by
      intro h0
      have hf := (hasKey_eq_false_iff l k).mpr h0
      rw [hk] at hf
      simp at hf
    omega
  · have hk2 : hasKey l k = false := by
      revert hk
      cases hasKey l k <;> simp
    rw [if_neg hk, countKey_append_single, (hasKey_eq_false_iff l k).mp hk2]

/-- Replacing the value under a key entry by entry makes lookup return
the new value, whenever the key is present. -/
theorem lookupKey_map_set (l : List (String × Nat)) (k : String) (v : Nat)
    (h : hasKey l k = true) :
    lookupKey (l.map fun p => if p.1 == k then (k, v) else p) k = some v := by
  induction l with
  | nil => simp [hasKey] at h
  | cons p rest ih =>
    simp only [hasKey, List.any_cons, Bool.or_eq_true] at h
    simp only [List.map_cons, lookupKey]
    by_cases hp : (p.1 == k) = true
    · rw [if_pos hp]
      simp
    · rw [if_neg hp, if_neg hp]
      rcases h with h | h
      · exact absurd h hp
      · exact ih h

/-- Lookup skips a prefix that does not hold the key. -/
theorem lookupKey_append_right (l m : List (String × Nat)) (k : String)
    (h : hasKey l k = false) : lookupKey (l ++ m) k = lookupKey m k := by
  induction l with
  | nil => rfl
  | cons p rest ih =>
    simp only [hasKey, List.any_cons, Bool.or_eq_false_iff, beq_eq_false_iff_ne] at h
    simp only [List.cons_append, lookupKey, beq_iff_eq, h.1, if_false]
    exact ih h.2

/-- After a dict assignment, lookup of the assigned key returns the
assigned value. -/
theorem lookupKey_dictSet (l : List (String × Nat)) (k : String) (v : Nat) :
    lookupKey (dictSet l k v) k = some v := by
  unfold dictSet
  by_cases hk : hasKey l k = true
  · rw [if_pos hk]
    exact lookupKey_map_set l k v hk
  · have hk2 : hasKey l k = false := by
      revert hk
      cases hasKey l k <;> simp
    rw [if_neg hk, lookupKey_append_right l _ k hk2]
    simp [lookupKey]

/-- Claim C1 as stated is false on the code: after the two extraction
tool calls of the scenario, the shopping_list_state stored in the
UserSession is still the initial empty list, because
_handle_shopping_list_update never writes to the session; it does not
equal the second extracted list. -/
theorem tool_calls_do_not_write_session_list :
    (process_upstream_events ⟨true, true⟩ (UserSession_init "alice" 0)
        [(toolFrame milkCall1, 1), (toolFrame milkOnionCall, 2)]).1.shopping_list_state.items
      ≠ [⟨"milk", 2, none, "Ogólne"⟩, ⟨"onion", 1, none, "Ogólne"⟩] := by
  decide

/-- Claim C1 (amended): processing the two consecutive extraction tool
calls leaves the UserSession untouched, and the client-visible
replacement happens in the emitted messages: the second
shopping_list_updated message carries exactly the second list (milk 2,
onion 1), not a union with the first, and each call is acknowledged
upstream. -/
theorem second_extraction_replaces_emitted_list (s : SessionState) (t1 t2 : Rat) :
    process_upstream_events ⟨true, true⟩ s
        [(toolFrame milkCall1, t1), (toolFrame milkOnionCall, t2)]
      = (s, ⟨[ClientMsg.shoppingListUpdated ⟨[⟨"milk", 1, none, "Ogólne"⟩], "", t1, 4 / 5⟩,
              ClientMsg.shoppingListUpdated
                ⟨[⟨"milk", 2, none, "Ogólne"⟩, ⟨"onion", 1, none, "Ogólne"⟩], "", t2, 4 / 5⟩],
             [UpstreamMsg.functionResponse (some "call1"),
              UpstreamMsg.functionResponse (some "call2")],
             ⟨true, true⟩⟩) := by
  rfl

/-- Claim C2 as stated is false on the code: creating a session twice
for the same identity leaves one registry entry, but no transport is
ever closed by the creation path, so the first session is not
forcibly terminated. -/
theorem second_create_leaves_first_transport_open :
    countKey (accept_connection (accept_connection ⟨[], []⟩ "alice" 0)
        "alice" 1).active_sessions "alice" = 1
    ∧ (accept_connection (accept_connection ⟨[], []⟩ "alice" 0)
        "alice" 1).closed_transports = []
    ∧ 0 ∉ (accept_connection (accept_connection ⟨[], []⟩ "alice" 0)
        "alice" 1).closed_transports := by
  decide

/-- Claim C2 (amended): two creations for the same identity leave
exactly one registry entry for it, holding the second session, but the
first session is only dropped from the table, its client transport is
not closed (the set of closed transports is unchanged). -/
theorem create_twice_single_entry (st : ServerState) (uid : String) (sid1 sid2 : Nat)
    (h : countKey st.active_sessions uid ≤ 1) :
    countKey (accept_connection (accept_connection st uid sid1) uid sid2).active_sessions uid = 1
    ∧ lookupKey (accept_connection (accept_connection st uid sid1) uid sid2).active_sessions uid
        = some sid2
    ∧ (accept_connection (accept_connection st uid sid1) uid sid2).closed_transports
        = st.closed_transports := by
  refine ⟨?_, ?_, rfl⟩
  · have h1 : countKey (dictSet st.active_sessions uid sid1) uid ≤ 1 :=
      le_of_eq (countKey_dictSet st.active_sessions uid sid1 h)
    exact countKey_dictSet _ uid sid2 h1
  · exact lookupKey_dictSet _ uid sid2

/-- Witness for the amended claim C2 at a concrete registry. -/
theorem create_twice_single_entry_witness :
    countKey (⟨[], []⟩ : ServerState).active_sessions "alice" ≤ 1
    ∧ (countKey (accept_connection (accept_connection ⟨[], []⟩ "alice" 0)
          "alice" 1).active_sessions "alice" = 1
       ∧ lookupKey (accept_connection (accept_connection ⟨[], []⟩ "alice" 0)
           "alice" 1).active_sessions "alice" = some 1
       ∧ (accept_connection (accept_connection ⟨[], []⟩ "alice" 0)
           "alice" 1).closed_transports = (⟨[], []⟩ : ServerState).closed_transports) :=
  ⟨by decide, create_twice_single_entry ⟨[], []⟩ "alice" 0 1 (by decide)⟩

/-- Claim C3 as stated is false on the code: an item without a category
key is given the category "Ogólne" (the source default), which is not
the string "general" named by the claim. -/
theorem missing_category_defaults_to_ogolne :
    (handle_shopping_list_update ⟨some [⟨some "milk", some 1, none, none⟩], none⟩ 0).items
      = [⟨"milk", 1, none, "Ogólne"⟩]
    ∧ ("Ogólne" : String) ≠ "general" := by
  constructor
  · rfl
  · decide

/-- Claim C3 (amended): a tool call naming the extraction function is
parsed into the item list with the defaults of the source: missing name
becomes "unknown", missing quantity becomes 1, missing category becomes
"Ogólne" (not "general"), and the state carries the provided confidence
or the default 0.8, stamped with the current time. -/
theorem extraction_defaults_applied (now : Rat) (cid : Option String)
    (items : List ItemArgs) (conf : Option Rat) :
    handle_gemini_message ⟨true, true⟩ now
        ⟨false, none, some ⟨some [⟨"update_shopping_list", cid, ⟨some items, conf⟩⟩]⟩⟩
      = ([ClientMsg.shoppingListUpdated
            ⟨items.map fun d =>
               ⟨d.name.getD "unknown", d.quantity.getD 1, d.unit, d.category.getD "Ogólne"⟩,
             "", now, conf.getD (4 / 5)⟩],
         [UpstreamMsg.functionResponse cid]) := by
  rfl

/-- Claim C4 as stated is false on the code: a tool call with an
unrecognized function name produces no client message and also no
function response, because _send_function_response is only reached
inside the update_shopping_list branch. -/
theorem unrecognized_tool_call_gets_no_ack :
    handle_gemini_message ⟨true, true⟩ 0
        ⟨false, none, some ⟨some [⟨"delete_everything", some "call7", ⟨none, none⟩⟩]⟩⟩
      = ([], []) := by
  rfl

/-- Claim C4 (amended): a tool call whose function name is not
update_shopping_list emits nothing observable to the client and is not
acknowledged upstream either; only the extraction function is acked. -/
theorem unrecognized_tool_call_ignored (g : GeminiService) (now : Rat)
    (fname : String) (cid : Option String) (args : UpdateArgs)
    (h : fname ≠ "update_shopping_list") :
    handle_gemini_message g now ⟨false, none, some ⟨some [⟨fname, cid, args⟩]⟩⟩
      = ([], []) := by
  simp [handle_gemini_message, handle_tool_calls, handle_function_call, h]

/-- Witness for the amended claim C4 at a concrete unrecognized call. -/
theorem unrecognized_tool_call_ignored_witness :
    ("delete_everything" : String) ≠ "update_shopping_list"
    ∧ handle_gemini_message ⟨false, true⟩ 3
        ⟨false, none, some ⟨some [⟨"delete_everything", some "c", ⟨none, none⟩⟩]⟩⟩
      = ([], []) :=
  ⟨by decide,
   unrecognized_tool_call_ignored ⟨false, true⟩ 3 "delete_everything" (some "c")
     ⟨none, none⟩ (by decide)⟩

/-- Claim C5 as stated is false on the code: an audio_chunk command
whose payload is the empty string is an AudioChunk command, yet it
produces no AudioReceived reply at all, because the handler only
replies when audio_data is truthy. -/
theorem empty_audio_chunk_yields_no_reply :
    client_loop ⟨true, true⟩ (UserSession_init "alice" 0)
        [(ClientCmd.audio_chunk (some "") (some 1), 1)]
      = ({ UserSession_init "alice" 0 with last_activity := 1 }, [], []) := by
  rfl

/-- Claim C5 (amended): for a sequence of AudioChunk commands processed
while Active, each command with a non-empty payload yields exactly one
AudioReceived reply whose chunk_size equals the payload length, and the
replies appear in the order the commands were received; an empty or
missing payload yields no reply. -/
theorem audio_chunks_acked_in_order (g : GeminiService) (s : SessionState)
    (chunks : List (String × Rat))
    (h : ∀ c ∈ chunks, c.1 ≠ "") :
    (client_loop g s (chunks.map fun c =>
        (ClientCmd.audio_chunk (some c.1) (some c.2), c.2))).2.1
      = chunks.map fun c => ClientMsg.audioReceived c.2 c.1.length := by
  induction chunks generalizing s with
  | nil => rfl
  | cons c rest ih =>
    have hc : c.1 ≠ "" := h c (List.mem_cons_self c rest)
    have hrest : ∀ x ∈ rest, x.1 ≠ "" := fun x hx => h x (List.mem_cons_of_mem c hx)
    simp [client_loop, handle_client_message, hc, ih _ hrest]

/-- Witness for the amended claim C5 at a concrete two-chunk run. -/
theorem audio_chunks_acked_in_order_witness :
    (∀ c ∈ [("abc", (1 : Rat)), ("de", 2)], c.1 ≠ "")
    ∧ (client_loop ⟨true, true⟩ (UserSession_init "bob" 0)
          ([("abc", (1 : Rat)), ("de", 2)].map fun c =>
            (ClientCmd.audio_chunk (some c.1) (some c.2), c.2))).2.1
        = [("abc", (1 : Rat)), ("de", 2)].map fun c =>
            ClientMsg.audioReceived c.2 c.1.length :=
  ⟨by decide,
   audio_chunks_acked_in_order ⟨true, true⟩ (UserSession_init "bob" 0)
     [("abc", (1 : Rat)), ("de", 2)] (by decide)⟩

/-- Claim C6 as stated is false on the code: when closing the upstream
link raises, the cleanup block stops there, the exception escapes, and
the session is left in the registry. -/
theorem close_failure_skips_registry_removal :
    session_cleanup ⟨true, true⟩ false ⟨[("alice", 0)], []⟩ "alice"
      = (⟨true, true⟩, ⟨[("alice", 0)], []⟩, true) := by
  rfl

/-- Claim C6 (amended): the teardown steps are not independently
guarded: disconnect and registry removal run in sequence in one finally
block, so the session is removed from the registry exactly when closing
the upstream link succeeds; when the close raises, the exception
propagates and the registry entry survives. -/
theorem cleanup_removes_iff_close_succeeds (g : GeminiService) (st : ServerState)
    (uid : String) (closeOk : Bool) (hw : g.hasWs = true) :
    session_cleanup g closeOk st uid
      = if closeOk then
          ({ g with is_connected := false },
           { st with active_sessions := dictDelete st.active_sessions uid }, false)
        else (g, st, true) := by
  cases closeOk <;> simp [session_cleanup, gemini_disconnect, hw]

/-- Witness for the amended claim C6 at a concrete successful close. -/
theorem cleanup_removes_iff_close_succeeds_witness :
    (⟨true, true⟩ : GeminiService).hasWs = true
    ∧ session_cleanup ⟨true, true⟩ true ⟨[("u", 5)], []⟩ "u"
        = if true then
            ({ (⟨true, true⟩ : GeminiService) with is_connected := false },
             { (⟨[("u", 5)], []⟩ : ServerState) with
                 active_sessions := dictDelete (⟨[("u", 5)], []⟩ : ServerState).active_sessions "u" },
             false)
          else (⟨true, true⟩, ⟨[("u", 5)], []⟩, true) :=
  ⟨rfl, cleanup_removes_iff_close_succeeds ⟨true, true⟩ ⟨[("u", 5)], []⟩ "u" true rfl⟩

/-- Claim C7 as stated is false on the code: when the pump observes
ConnectionClosed it clears is_connected and stops, but it sends no
message at all to the client; no "upstream_closed" status exists in the
source. -/
theorem connection_closed_emits_no_status :
    listen_for_responses ⟨true, true⟩ [(UpstreamFrame.connClosed, 0)]
      = ⟨[], [], ⟨false, true⟩⟩ := by
  rfl

/-- Claim C7 (amended): on observing ConnectionClosed the upstream pump
terminates at once (frames after it are never processed) and clears the
connected flag of the link, but emits no message to the client. -/
theorem connection_closed_terminates_pump (g : GeminiService) (t : Rat)
    (rest : List (UpstreamFrame × Rat)) :
    listen_for_responses g ((UpstreamFrame.connClosed, t) :: rest)
      = ⟨[], [], { g with is_connected := false }⟩ := by
  rfl

/-- Claim C8: a malformed upstream frame never terminates the pump and
contributes nothing, and a well-formed TextContent frame following a
malformed one still produces its Transcript message to the client. -/
theorem malformed_frame_does_not_kill_pump (g : GeminiService) (t1 t2 : Rat)
    (txt : String) (rest : List (UpstreamFrame × Rat)) :
    listen_for_responses g ((UpstreamFrame.malformed, t1) :: rest)
        = listen_for_responses g rest
    ∧ (listen_for_responses g ((UpstreamFrame.malformed, t1) ::
          (UpstreamFrame.ok ⟨false, some ⟨some [⟨some txt⟩]⟩, none⟩, t2) :: rest)).toClient
        = ClientMsg.transcript txt false :: (listen_for_responses g rest).toClient :=
  ⟨rfl, rfl⟩

/-- Claim C9: a ping command processed in the Active command loop
yields exactly one pong reply, sends nothing upstream, does not stop
the loop, and updates only last_activity: the extracted-list state and
every other session field are unchanged. -/
theorem ping_single_pong_only_activity (g : GeminiService) (now : Rat)
    (s : SessionState) :
    handle_client_message g now s ClientCmd.ping
        = ⟨{ s with last_activity := now }, [ClientMsg.pong now], [], false⟩
    ∧ (handle_client_message g now s ClientCmd.ping).session.shopping_list_state
        = s.shopping_list_state
    ∧ (handle_client_message g now s ClientCmd.ping).session.user_id = s.user_id
    ∧ (handle_client_message g now s ClientCmd.ping).session.is_connected = s.is_connected
    ∧ (handle_client_message g now s ClientCmd.ping).session.created_at = s.created_at :=
  ⟨rfl, rfl, rfl, rfl, rfl⟩

/-- Claim C10: an audio_chunk command with a non-empty payload handled
while the upstream link is disconnected still gets exactly one
AudioReceived reply whose chunk_size is the full payload length, while
the audio itself is silently dropped: nothing is forwarded upstream. -/
theorem disconnected_audio_still_acked (g : GeminiService) (now ts : Rat)
    (s : SessionState) (p : String)
    (hg : g.is_connected = false) (hp : p ≠ "") :
    handle_client_message g now s (ClientCmd.audio_chunk (some p) (some ts))
      = ⟨{ s with last_activity := now }, [ClientMsg.audioReceived ts p.length],
         [], false⟩ := by
  simp [handle_client_message, send_audio_chunk, hg, hp]

/-- Witness for claim C10 at a concrete disconnected chunk. -/
theorem disconnected_audio_still_acked_witness :
    (⟨false, true⟩ : GeminiService).is_connected = false
    ∧ ("audio" : String) ≠ ""
    ∧ handle_client_message ⟨false, true⟩ 7 (UserSession_init "carol" 0)
          (ClientCmd.audio_chunk (some "audio") (some 3))
        = ⟨{ UserSession_init "carol" 0 with last_activity := 7 },
           [ClientMsg.audioReceived 3 "audio".length], [], false⟩ :=
  ⟨rfl, by decide,
   disconnected_audio_still_acked ⟨false, true⟩ 7 3 (UserSession_init "carol" 0)
     "audio" rfl (by decide)⟩

end GetBananas
